import Mathlib

/-!
Verification of the sensor-data server (`app.py`): payload validation,
the relational and file-fallback storage backends (`save_data`,
`get_latest_data`, `receive_sensor_data`), and the filename encoding
used by the fallback store.

Strings are modelled as lists of Unicode code points (`Str`), so that
Python's code-point lexicographic string comparison is explicit.
-/

namespace SpillData

/-- Strings as lists of Unicode code points. -/
abbrev Str := List Nat

/-- Python string comparison `a < b`: lexicographic by code point,
with a proper prefix ordered before any extension. -/
def strLt : Str → Str → Bool
  | [], [] => false
  | [], _ :: _ => true
  | _ :: _, [] => false
  | a :: as, b :: bs => if a < b then true else if a = b then strLt as bs else false

/-- Decimal rendering of `n`, zero-padded to exactly `w` digits
(code points 48–57); this is how `datetime.isoformat` renders each
numeric field of the timestamp. -/
def padNat : Nat → Nat → Str
  | 0, _ => []
  | w + 1, n => (48 + n / 10 ^ w) :: padNat w (n % 10 ^ w)

theorem strLt_cons_same (c : Nat) (x y : Str) :
    strLt (c :: x) (c :: y) = strLt x y := by
  simp [strLt]

theorem strLt_append_same (p x y : Str) :
    strLt (p ++ x) (p ++ y) = strLt x y := by
  induction p with
  | nil => rfl
  | cons c p ih => simpa [strLt] using ih

theorem strLt_irrefl (s : Str) : strLt s s = false := by
  induction s with
  | nil => rfl
  | cons c s ih => simpa [strLt] using ih

theorem strLt_ne {a b : Str} (h : strLt a b = true) : a ≠ b := by
  intro he
  rw [he, strLt_irrefl] at h
  exact Bool.false_ne_true h

theorem strLt_append_of_lt :
    ∀ (a b x y : Str), a.length = b.length → strLt a b = true →
      strLt (a ++ x) (b ++ y) = true
  | [], [], _, _, _, h => by simp [strLt] at h
  | [], _ :: _, _, _, hl, _ => by simp at hl
  | _ :: _, [], _, _, hl, _ => by simp at hl
  | a :: as, b :: bs, x, y, hl, h => by
    simp only [List.cons_append, strLt] at h ⊢
    by_cases hab : a < b
    · simp [hab]
    · by_cases hae : a = b
      · subst hae
        simp only [Nat.lt_irrefl, if_false, if_true] at h ⊢
        exact strLt_append_of_lt as bs x y (by simpa using hl) h
      · simp [hab, hae] at h

theorem padNat_length (w : Nat) : ∀ n, (padNat w n).length = w := by
  induction w with
  | zero => intro n; rfl
  | succ w ih => intro n; simp [padNat, ih]

theorem padNat_strLt :
    ∀ (w v1 v2 : Nat), v1 < v2 → v2 < 10 ^ w →
      strLt (padNat w v1) (padNat w v2) = true
  | 0, v1, v2, h, hb => by
    simp at hb
    omega
  | w + 1, v1, v2, h, hb => by
    have hq : v1 / 10 ^ w ≤ v2 / 10 ^ w := Nat.div_le_div_right (Nat.le_of_lt h)
    rcases Nat.lt_or_eq_of_le hq with hlt | heq
    · simp only [padNat, strLt]
      have : 48 + v1 / 10 ^ w < 48 + v2 / 10 ^ w := by omega
      simp [this]
    · have hp : 0 < 10 ^ w := Nat.pos_pow_of_pos w (by omega)
      have h1 := Nat.div_add_mod v1 (10 ^ w)
      have h2 := Nat.div_add_mod v2 (10 ^ w)
      have hr : v1 % 10 ^ w < v2 % 10 ^ w := by
        rw [heq] at h1
        omega
      have hrb : v2 % 10 ^ w < 10 ^ w := Nat.mod_lt _ hp
      simp only [padNat, strLt, heq]
      simp [padNat_strLt w _ _ hr hrb]

theorem strLt_pad_append (w v1 v2 : Nat) (x y : Str)
    (h : v1 < v2) (hb : v2 < 10 ^ w) :
    strLt (padNat w v1 ++ x) (padNat w v2 ++ y) = true :=
  strLt_append_of_lt _ _ _ _ (by rw [padNat_length, padNat_length])
    (padNat_strLt w v1 v2 h hb)

/-- Wall-clock timestamp as produced by Python `datetime.now()`:
calendar fields plus microseconds. -/
structure TS where
  year : Nat
  month : Nat
  day : Nat
  hour : Nat
  minute : Nat
  second : Nat
  usec : Nat
deriving DecidableEq

/-- Digit-width bounds on the timestamp fields; every value
`datetime.now()` can produce satisfies them (months are 1–12,
and so on, so each field fits its zero-padded print width). -/
def tsWF (t : TS) : Prop :=
  t.year < 10 ^ 4 ∧ t.month < 10 ^ 2 ∧ t.day < 10 ^ 2 ∧ t.hour < 10 ^ 2 ∧
    t.minute < 10 ^ 2 ∧ t.second < 10 ^ 2 ∧ t.usec < 10 ^ 6

instance (t : TS) : Decidable (tsWF t) := by
  unfold tsWF
  infer_instance

/-- Output of Python `datetime.isoformat()`: `YYYY-MM-DDTHH:MM:SS`,
followed by `.ffffff` exactly when the microsecond field is nonzero
(45 is the dash, 84 is `T`, 58 is the colon, 46 is the dot). -/
def isoformat (t : TS) : Str :=
  padNat 4 t.year ++ [45] ++ padNat 2 t.month ++ [45] ++ padNat 2 t.day ++ [84] ++
    padNat 2 t.hour ++ [58] ++ padNat 2 t.minute ++ [58] ++ padNat 2 t.second ++
    (if t.usec = 0 then [] else 46 :: padNat 6 t.usec)

/-- The `timestamp.replace(':', '-')` step of `save_data`:
every colon (58) becomes a dash (45). -/
def replaceColons (s : Str) : Str := s.map fun c => if c = 58 then 45 else c

/-- Code points of the `.json` filename extension. -/
def jsonSuffix : Str := [46, 106, 115, 111, 110]

/-- Basename of the fallback-store file written by `save_data`:
`f"{device_id}_{timestamp.replace(':', '-')}.json"` (95 is the
underscore); the constant `data/` directory prefix is dropped. -/
def fileNameOf (d : Str) (t : TS) : Str :=
  d ++ [95] ++ replaceColons (isoformat t) ++ jsonSuffix

/-- Calendar fields of a timestamp truncated to whole seconds. -/
def secKey (t : TS) : List Nat :=
  [t.year, t.month, t.day, t.hour, t.minute, t.second]

/-- Strict chronological order at one-second granularity: the
second-truncations of the two timestamps are compared field by field.
Two timestamps whose capture instants differ by at least one second
always satisfy it in capture order. -/
def secLexLt (t1 t2 : TS) : Bool := strLt (secKey t1) (secKey t2)

theorem replaceColons_padNat :
    ∀ (w n : Nat), n < 10 ^ w → replaceColons (padNat w n) = padNat w n
  | 0, _, _ => rfl
  | w + 1, n, hb => by
    have hp : 0 < 10 ^ w := Nat.pos_pow_of_pos w (by omega)
    have hd : n / 10 ^ w ≤ 9 := by
      have : n < 10 * 10 ^ w := by
        calc n < 10 ^ (w + 1) := hb
        _ = 10 * 10 ^ w := by ring
      have := Nat.div_lt_of_lt_mul (by omega : n < 10 ^ w * 10)
      omega
    have hne : ¬(48 + n / 10 ^ w = 58) := by omega
    have hm : n % 10 ^ w < 10 ^ w := Nat.mod_lt _ hp
    simp only [padNat, replaceColons, List.map_cons, if_neg hne]
    have := replaceColons_padNat w (n % 10 ^ w) hm
    simp only [replaceColons] at this
    rw [this]

theorem replaceColons_append (a b : Str) :
    replaceColons (a ++ b) = replaceColons a ++ replaceColons b := by
  simp [replaceColons]

theorem secLexLt_cases (t1 t2 : TS) (h : secLexLt t1 t2 = true) :
    t1.year < t2.year ∨ (t1.year = t2.year ∧
      (t1.month < t2.month ∨ (t1.month = t2.month ∧
        (t1.day < t2.day ∨ (t1.day = t2.day ∧
          (t1.hour < t2.hour ∨ (t1.hour = t2.hour ∧
            (t1.minute < t2.minute ∨ (t1.minute = t2.minute ∧
              t1.second < t2.second))))))))) := by
  simp only [secLexLt, secKey, strLt] at h
  by_cases c1 : t1.year < t2.year
  · exact Or.inl c1
  right
  by_cases e1 : t1.year = t2.year
  all_goals simp only [c1, if_false, e1, if_true] at h
  case neg => exact absurd h (by simp)
  refine ⟨e1, ?_⟩
  by_cases c2 : t1.month < t2.month
  · exact Or.inl c2
  right
  by_cases e2 : t1.month = t2.month
  all_goals simp only [c2, if_false, e2, if_true] at h
  case neg => exact absurd h (by simp)
  refine ⟨e2, ?_⟩
  by_cases c3 : t1.day < t2.day
  · exact Or.inl c3
  right
  by_cases e3 : t1.day = t2.day
  all_goals simp only [c3, if_false, e3, if_true] at h
  case neg => exact absurd h (by simp)
  refine ⟨e3, ?_⟩
  by_cases c4 : t1.hour < t2.hour
  · exact Or.inl c4
  right
  by_cases e4 : t1.hour = t2.hour
  all_goals simp only [c4, if_false, e4, if_true] at h
  case neg => exact absurd h (by simp)
  refine ⟨e4, ?_⟩
  by_cases c5 : t1.minute < t2.minute
  · exact Or.inl c5
  right
  by_cases e5 : t1.minute = t2.minute
  all_goals simp only [c5, if_false, e5, if_true] at h
  case neg => exact absurd h (by simp)
  refine ⟨e5, ?_⟩
  by_cases c6 : t1.second < t2.second
  · exact c6
  · simp [c6] at h

/-- Normal form of the colon-replaced ISO timestamp: the seconds part
rendered with dashes, followed by the (possibly empty) fractional tail. -/
theorem replColons_isoformat (t : TS) (h : tsWF t) :
    replaceColons (isoformat t) =
      padNat 4 t.year ++ [45] ++ padNat 2 t.month ++ [45] ++ padNat 2 t.day ++ [84] ++
        padNat 2 t.hour ++ [45] ++ padNat 2 t.minute ++ [45] ++ padNat 2 t.second ++
        replaceColons (if t.usec = 0 then [] else 46 :: padNat 6 t.usec) := by
  obtain ⟨h1, h2, h3, h4, h5, h6, _⟩ := h
  simp only [isoformat, replaceColons_append,
    replaceColons_padNat 4 t.year h1, replaceColons_padNat 2 t.month h2,
    replaceColons_padNat 2 t.day h3, replaceColons_padNat 2 t.hour h4,
    replaceColons_padNat 2 t.minute h5, replaceColons_padNat 2 t.second h6]
  norm_num [replaceColons]

/-- Core ordering fact about the fallback filename encoding: for a
fixed device, timestamps that differ at one-second granularity produce
filenames in the same lexicographic order. -/
theorem fileNameOf_lt (d : Str) (t1 t2 : TS) (h1 : tsWF t1) (h2 : tsWF t2)
    (hsec : secLexLt t1 t2 = true) :
    strLt (fileNameOf d t1) (fileNameOf d t2) = true := by
  have b2 : t2.year < 10 ^ 4 := h2.1
  have bm : t2.month < 10 ^ 2 := h2.2.1
  have bd : t2.day < 10 ^ 2 := h2.2.2.1
  have bh : t2.hour < 10 ^ 2 := h2.2.2.2.1
  have bmin : t2.minute < 10 ^ 2 := h2.2.2.2.2.1
  have bs : t2.second < 10 ^ 2 := h2.2.2.2.2.2.1
  rw [fileNameOf, fileNameOf, replColons_isoformat t1 h1, replColons_isoformat t2 h2]
  simp only [List.append_assoc, List.cons_append, List.singleton_append,
    List.nil_append, strLt_append_same, strLt_cons_same]
  rcases secLexLt_cases t1 t2 hsec with hy | ⟨ey, hmo | ⟨emo, hd | ⟨ed, hh | ⟨eh, hmi | ⟨emi, hs⟩⟩⟩⟩⟩
  · exact strLt_pad_append 4 _ _ _ _ hy b2
  · rw [ey]
    simp only [strLt_append_same, strLt_cons_same]
    exact strLt_pad_append 2 _ _ _ _ hmo bm
  · rw [ey, emo]
    simp only [strLt_append_same, strLt_cons_same]
    exact strLt_pad_append 2 _ _ _ _ hd bd
  · rw [ey, emo, ed]
    simp only [strLt_append_same, strLt_cons_same]
    exact strLt_pad_append 2 _ _ _ _ hh bh
  · rw [ey, emo, ed, eh]
    simp only [strLt_append_same, strLt_cons_same]
    exact strLt_pad_append 2 _ _ _ _ hmi bmin
  · rw [ey, emo, ed, eh, emi]
    simp only [strLt_append_same, strLt_cons_same]
    exact strLt_pad_append 2 _ _ _ _ hs bs

/-- JSON scalar values occurring in a sensor payload. Numbers are kept
opaque (the server never computes with them, it only stores and echoes
them), so one integer index per distinct numeric literal suffices. -/
inductive JVal where
  | null : JVal
  | str : Str → JVal
  | num : Int → JVal
deriving DecidableEq

/-- Decoded JSON object payload: ordered association list of fields,
as produced by `request.get_json()`. -/
abbrev Json := List (Str × JVal)

/-- Code points of the string `device_id`. -/
def deviceKey : Str := [100, 101, 118, 105, 99, 101, 95, 105, 100]

/-- Code points of the string `temperature`. -/
def temperatureKey : Str := [116, 101, 109, 112, 101, 114, 97, 116, 117, 114, 101]

/-- Code points of the string `humidity`. -/
def humidityKey : Str := [104, 117, 109, 105, 100, 105, 116, 121]

/-- Code points of the string `flow_rate`. -/
def flowRateKey : Str := [102, 108, 111, 119, 95, 114, 97, 116, 101]

/-- Code points of the string `flow_direction`. -/
def flowDirectionKey : Str := [102, 108, 111, 119, 95, 100, 105, 114, 101, 99, 116, 105, 111, 110]

/-- Code points of the string `latitude`. -/
def latitudeKey : Str := [108, 97, 116, 105, 116, 117, 100, 101]

/-- Code points of the string `longitude`. -/
def longitudeKey : Str := [108, 111, 110, 103, 105, 116, 117, 100, 101]

/-- Code points of the string `timestamp`. -/
def timestampKey : Str := [116, 105, 109, 101, 115, 116, 97, 109, 112]

/-- Code points of the string `unknown`, the `data.get('device_id', 'unknown')`
default in `save_data`. -/
def unknownStr : Str := [117, 110, 107, 110, 111, 119, 110]

/-- Code points of the string `None`, how Python renders a null inside
an f-string when a present-but-null `device_id` reaches `save_data`. -/
def noneStr : Str := [78, 111, 110, 101]

/-- Python `field in data`: key present in the decoded object,
whatever its value (including null). -/
def containsKey (data : Json) (k : Str) : Bool :=
  data.any fun p => decide (p.1 = k)

/-- The `required_fields` list of `receive_sensor_data`. -/
def requiredKeys : List Str := [deviceKey, temperatureKey, humidityKey, flowRateKey]

/-- The validation check of `receive_sensor_data`:
`all(field in data for field in required_fields)`. -/
def requiredPresent (data : Json) : Bool :=
  requiredKeys.all fun f => containsKey data f

/-- Python `data.get(k, d)`: value of the first matching key, or the
default when the key is absent. -/
def jgetD (data : Json) (k : Str) (d : JVal) : JVal :=
  match data.find? (fun p => decide (p.1 = k)) with
  | some p => p.2
  | none => d

/-- Python `f"{v}"` on a payload value: strings render as themselves,
`None` renders as `None`; the numeric case is never hit by a valid
device id and is rendered by decimal notation. -/
def pyStr : JVal → Str
  | JVal.null => noneStr
  | JVal.str s => s
  | JVal.num n => (toString n).toList.map Char.toNat

/-- Row of the `sensor_data` table: the seven inserted columns plus the
server-default `timestamp` column (the auto-increment id is the list
position). -/
structure Row where
  device_id : JVal
  temperature : JVal
  humidity : JVal
  flow_rate : JVal
  flow_direction : JVal
  latitude : JVal
  longitude : JVal
  timestamp : TS
deriving DecidableEq

/-- Row built by the INSERT of `save_data`: each column is
`data.get(column)` (null when absent), the device id defaulting to
`unknown`, and the timestamp filled by the column default. -/
def mkRow (data : Json) (now : TS) : Row where
  device_id := jgetD data deviceKey (JVal.str unknownStr)
  temperature := jgetD data temperatureKey JVal.null
  humidity := jgetD data humidityKey JVal.null
  flow_rate := jgetD data flowRateKey JVal.null
  flow_direction := jgetD data flowDirectionKey JVal.null
  latitude := jgetD data latitudeKey JVal.null
  longitude := jgetD data longitudeKey JVal.null
  timestamp := now

/-- Persistent state of the process: the relational table rows (in
insertion order) and the fallback `data/` directory as a map from file
basename to stored JSON content (in creation order). -/
structure ServerState where
  rows : List Row
  fs : List (Str × Json)
deriving DecidableEq

/-- Fresh process state: empty table, empty `data/` directory. -/
def emptyState : ServerState := ⟨[], []⟩

/-- Semantics of `open(filename, 'w')` + `json.dump`: an existing file
of the same name is truncated and rewritten, otherwise a new directory
entry is appended. -/
def fsWrite (fs : List (Str × Json)) (nm : Str) (content : Json) : List (Str × Json) :=
  if fs.any fun p => decide (p.1 = nm) then
    fs.map fun p => if p.1 = nm then (nm, content) else p
  else fs ++ [(nm, content)]

/-- Filename chosen by the fallback branch of `save_data` for a payload
saved at instant `now`. -/
def saveName (data : Json) (now : TS) : Str :=
  fileNameOf (pyStr (jgetD data deviceKey (JVal.str unknownStr))) now

/-- The `save_data` function of `app.py`. `useDb` is whether
`DATABASE_URL` is configured (backend selection), `raises` is whether
the underlying store throws during this call, `now` is the capture
instant (the INSERT's column default, or `datetime.now()` in the
fallback branch). Returns the Python boolean result and the state
after the call; a throwing call commits nothing. -/
def save_data (useDb raises : Bool) (st : ServerState) (now : TS) (data : Json) :
    Bool × ServerState :=
  if useDb then
    if raises then (false, st)
    else (true, { st with rows := st.rows ++ [mkRow data now] })
  else
    if raises then (false, st)
    else (true, { st with fs := fsWrite st.fs (saveName data now) data })

/-- Response of POST `/api/sensor-data`. `missingFields` renders as
HTTP 400 with body `{"error": "Missing required fields"}`;
`saveFailed` as HTTP 500 with `{"error": "Failed to save data"}`;
`received ts data` as HTTP 200 with
`{"message": "Data received successfully", "timestamp": ts, "data": data}`. -/
inductive PostResp where
  | missingFields : PostResp
  | saveFailed : PostResp
  | received : Str → Json → PostResp
deriving DecidableEq

/-- HTTP status code of a POST response. -/
def postStatus : PostResp → Nat
  | PostResp.received _ _ => 200
  | PostResp.missingFields => 400
  | PostResp.saveFailed => 500

/-- The `data` field of a POST response body, when the response has one. -/
def postRespData : PostResp → Option Json
  | PostResp.received _ d => some d
  | _ => none

/-- The `receive_sensor_data` handler of `app.py`: validate presence of
the four required fields, then save; `respNow` is the second
`datetime.now()` call used for the response timestamp. -/
def receive_sensor_data (useDb raises : Bool) (st : ServerState) (saveNow respNow : TS)
    (data : Json) : PostResp × ServerState :=
  if requiredPresent data then
    let r := save_data useDb raises st saveNow data
    if r.1 then (PostResp.received (isoformat respNow) data, r.2)
    else (PostResp.saveFailed, r.2)
  else (PostResp.missingFields, st)

/-- Response of GET `/api/sensor-data/{device_id}`. `ok body` renders as
HTTP 200 with `body`; `notFound` as HTTP 404 with
`{"error": "No data found for device"}`; `dbError` as HTTP 500 with
`{"error": "Database error"}`; `fsError` as HTTP 500 with
`{"error": "Error retrieving data"}`. -/
inductive GetResp where
  | ok : Json → GetResp
  | notFound : GetResp
  | dbError : GetResp
  | fsError : GetResp
deriving DecidableEq

/-- HTTP status code of a GET response. -/
def getStatus : GetResp → Nat
  | GetResp.ok _ => 200
  | GetResp.notFound => 404
  | _ => 500

/-- The `SELECT ... WHERE device_id = %s ORDER BY timestamp DESC LIMIT 1`
query: among the rows whose device id equals the queried string, the one
with the greatest timestamp (mixed-radix comparison of the calendar
fields; the first such row on ties, ties being broken arbitrarily by
the database). -/
def tsNat (t : TS) : Nat :=
  (((((t.year * 100 + t.month) * 100 + t.day) * 100 + t.hour) * 100 + t.minute) * 100
    + t.second) * 1000000 + t.usec

def selectLatest (rows : List Row) (d : Str) : Option Row :=
  (rows.filter fun r => decide (r.device_id = JVal.str d)).foldl
    (fun best r =>
      match best with
      | none => some r
      | some b => if tsNat b.timestamp < tsNat r.timestamp then some r else some b)
    none

/-- Python `max` on a nonempty list of strings (first maximum wins). -/
def listMaxStr (h : Str) (t : List Str) : Str :=
  t.foldl (fun a b => if strLt a b then b else a) h

/-- The 200 body built by the relational branch of `get_latest_data`
from the selected row. -/
def rowBody (d : Str) (r : Row) : Json :=
  [(deviceKey, JVal.str d), (temperatureKey, r.temperature),
   (humidityKey, r.humidity), (flowRateKey, r.flow_rate),
   (flowDirectionKey, r.flow_direction), (latitudeKey, r.latitude),
   (longitudeKey, r.longitude), (timestampKey, JVal.str (isoformat r.timestamp))]

/-- The `get_latest_data` handler of `app.py`. Relational branch: run
the latest-row query and render the eight-field body, 404 when no row,
500 when the query throws. Fallback branch: list the `data/` files whose
basename starts with `device_id + "_"`, 404 when none, otherwise return
the stored content of the lexicographically maximal filename verbatim;
500 when listing or reading throws. -/
def get_latest_data (useDb raises : Bool) (st : ServerState) (d : Str) : GetResp :=
  if useDb then
    if raises then GetResp.dbError
    else
      match selectLatest st.rows d with
      | some r => GetResp.ok (rowBody d r)
      | none => GetResp.notFound
  else
    if raises then GetResp.fsError
    else
      match (st.fs.map Prod.fst).filter (fun f => (d ++ [95]).isPrefixOf f) with
      | [] => GetResp.notFound
      | f :: fs =>
        match st.fs.find? (fun p => decide (p.1 = listMaxStr f fs)) with
        | some p => GetResp.ok p.2
        | none => GetResp.fsError

/-- Connection-lifecycle events of one database operation. -/
inductive DbEv where
  | connect : DbEv
  | execute : DbEv
  | commit : DbEv
  | closeCursor : DbEv
  | closeConn : DbEv
  | raised : DbEv
deriving DecidableEq

/-- Connection events of the relational branch of `save_data`: the
`try` block runs execute/commit/`cur.close()`/`conn.close()` in order;
when the work raises, the `except` branch returns `False` with no
`finally`, so no close is reached. -/
def save_db_events (raises : Bool) : List DbEv :=
  if raises then [DbEv.connect, DbEv.raised]
  else [DbEv.connect, DbEv.execute, DbEv.commit, DbEv.closeCursor, DbEv.closeConn]

/-- Connection events of the relational branch of `get_latest_data`:
whatever the `try` block does, the `finally` clause closes the
connection. -/
def get_db_events (raises : Bool) : List DbEv :=
  (if raises then [DbEv.connect, DbEv.raised] else [DbEv.connect, DbEv.execute])
    ++ [DbEv.closeConn]

theorem isPrefixOf_append (a x : Str) : a.isPrefixOf (a ++ x) = true := by
  induction a with
  | nil => simp [List.isPrefixOf]
  | cons c a ih => simp [List.isPrefixOf, ih]

theorem fileName_devPre (d : Str) (t : TS) :
    (d ++ [95]).isPrefixOf (fileNameOf d t) = true := by
  have he : fileNameOf d t = (d ++ [95]) ++ (replaceColons (isoformat t) ++ jsonSuffix) := by
    simp [fileNameOf]
  rw [he, isPrefixOf_append]

theorem listMaxStr_pair {a b : Str} (h : strLt a b = true) :
    listMaxStr a [b] = b := by
  simp [listMaxStr, h]

/-- C2. A POST payload missing any of the keys `device_id`, `temperature`,
`humidity`, `flow_rate` is answered with HTTP 400 (the
`Missing required fields` error body) and leaves the storage state
untouched; a payload containing all four keys passes validation, its
state is exactly the state produced by `save_data`, and a successful
save yields the 200 response. -/
theorem c2_validation_gate (useDb raises : Bool) (st : ServerState)
    (saveNow respNow : TS) (data : Json) :
    (requiredPresent data = false →
      (receive_sensor_data useDb raises st saveNow respNow data).1 = PostResp.missingFields ∧
      postStatus (receive_sensor_data useDb raises st saveNow respNow data).1 = 400 ∧
      (receive_sensor_data useDb raises st saveNow respNow data).2 = st) ∧
    (requiredPresent data = true →
      (receive_sensor_data useDb raises st saveNow respNow data).2
        = (save_data useDb raises st saveNow data).2 ∧
      ((save_data useDb raises st saveNow data).1 = true →
        (receive_sensor_data useDb raises st saveNow respNow data).1
          = PostResp.received (isoformat respNow) data)) := by
  constructor
  · intro h
    simp [receive_sensor_data, h, postStatus]
  · intro h
    by_cases hs : (save_data useDb raises st saveNow data).1 = true
    · simp [receive_sensor_data, h, hs]
    · simp [receive_sensor_data, h, hs]

/-- Witness for C2 at a concrete payload missing `flow_rate` and at a
concrete complete payload. -/
theorem c2_validation_gate_witness :
    (receive_sensor_data false false emptyState ⟨2026, 1, 1, 0, 0, 0, 0⟩
        ⟨2026, 1, 1, 0, 0, 0, 0⟩ [(deviceKey, JVal.str [100, 101, 118])]).1
      = PostResp.missingFields ∧
    (receive_sensor_data false false emptyState ⟨2026, 1, 1, 0, 0, 0, 0⟩
        ⟨2026, 1, 1, 0, 0, 0, 0⟩
        [(deviceKey, JVal.str [100, 101, 118]), (temperatureKey, JVal.num 1),
         (humidityKey, JVal.num 2), (flowRateKey, JVal.num 3)]).1
      = PostResp.received (isoformat ⟨2026, 1, 1, 0, 0, 0, 0⟩)
          [(deviceKey, JVal.str [100, 101, 118]), (temperatureKey, JVal.num 1),
           (humidityKey, JVal.num 2), (flowRateKey, JVal.num 3)] :=
  ⟨((c2_validation_gate false false emptyState ⟨2026, 1, 1, 0, 0, 0, 0⟩
      ⟨2026, 1, 1, 0, 0, 0, 0⟩ [(deviceKey, JVal.str [100, 101, 118])]).1
      (by decide)).1,
   ((c2_validation_gate false false emptyState ⟨2026, 1, 1, 0, 0, 0, 0⟩
      ⟨2026, 1, 1, 0, 0, 0, 0⟩
      [(deviceKey, JVal.str [100, 101, 118]), (temperatureKey, JVal.num 1),
       (humidityKey, JVal.num 2), (flowRateKey, JVal.num 3)]).2
      (by decide)).2 (by decide)⟩

/-- C3 counterexample. The payload whose four required keys are all
present with null values passes validation, is saved, and is answered
with HTTP 200 — it is not treated like absence and not rejected. -/
theorem c3_null_passes_counterexample :
    requiredPresent
        [(deviceKey, JVal.null), (temperatureKey, JVal.null),
         (humidityKey, JVal.null), (flowRateKey, JVal.null)] = true ∧
    (receive_sensor_data false false emptyState ⟨2026, 1, 1, 0, 0, 0, 0⟩
        ⟨2026, 1, 1, 0, 0, 0, 0⟩
        [(deviceKey, JVal.null), (temperatureKey, JVal.null),
         (humidityKey, JVal.null), (flowRateKey, JVal.null)]).1
      = PostResp.received (isoformat ⟨2026, 1, 1, 0, 0, 0, 0⟩)
          [(deviceKey, JVal.null), (temperatureKey, JVal.null),
           (humidityKey, JVal.null), (flowRateKey, JVal.null)] ∧
    (receive_sensor_data false false emptyState ⟨2026, 1, 1, 0, 0, 0, 0⟩
        ⟨2026, 1, 1, 0, 0, 0, 0⟩
        [(deviceKey, JVal.null), (temperatureKey, JVal.null),
         (humidityKey, JVal.null), (flowRateKey, JVal.null)]).2
      ≠ emptyState := by
  decide

/-- C3 amended. Validation checks key presence only: any payload whose
four required keys are present — whatever their values, null included —
passes validation and is forwarded to the storage layer; only absence of
a key causes the 400 rejection. -/
theorem c3_presence_only_validation (useDb raises : Bool) (st : ServerState)
    (saveNow respNow : TS) (data : Json)
    (h : ∀ k ∈ requiredKeys, containsKey data k = true) :
    requiredPresent data = true ∧
    (receive_sensor_data useDb raises st saveNow respNow data).1 ≠ PostResp.missingFields ∧
    (receive_sensor_data useDb raises st saveNow respNow data).2
      = (save_data useDb raises st saveNow data).2 := by
  have hv : requiredPresent data = true := by
    simp only [requiredPresent, List.all_eq_true]
    exact h
  refine ⟨hv, ?_, ?_⟩
  · by_cases hs : (save_data useDb raises st saveNow data).1 = true
    · simp [receive_sensor_data, hv, hs]
    · simp [receive_sensor_data, hv, hs]
  · by_cases hs : (save_data useDb raises st saveNow data).1 = true
    · simp [receive_sensor_data, hv, hs]
    · simp [receive_sensor_data, hv, hs]

/-- Witness for C3 amended at the all-null payload. -/
theorem c3_presence_only_validation_witness :
    requiredPresent
        [(deviceKey, JVal.null), (temperatureKey, JVal.null),
         (humidityKey, JVal.null), (flowRateKey, JVal.null)] = true ∧
    (receive_sensor_data false false emptyState ⟨2026, 1, 1, 0, 0, 0, 0⟩
        ⟨2026, 1, 1, 0, 0, 0, 0⟩
        [(deviceKey, JVal.null), (temperatureKey, JVal.null),
         (humidityKey, JVal.null), (flowRateKey, JVal.null)]).1
      ≠ PostResp.missingFields :=
  have h := c3_presence_only_validation false false emptyState
    ⟨2026, 1, 1, 0, 0, 0, 0⟩ ⟨2026, 1, 1, 0, 0, 0, 0⟩
    [(deviceKey, JVal.null), (temperatureKey, JVal.null),
     (humidityKey, JVal.null), (flowRateKey, JVal.null)]
    (by decide)
  ⟨h.1, h.2.1⟩

/-- C4. A payload passing validation whose save succeeds is answered with
HTTP 200 and the `data` field of the response body is the submitted
payload itself, extra fields included. -/
theorem c4_echo_invariant (useDb raises : Bool) (st : ServerState)
    (saveNow respNow : TS) (data : Json)
    (hv : requiredPresent data = true)
    (hs : (save_data useDb raises st saveNow data).1 = true) :
    postStatus (receive_sensor_data useDb raises st saveNow respNow data).1 = 200 ∧
    postRespData (receive_sensor_data useDb raises st saveNow respNow data).1 = some data := by
  simp [receive_sensor_data, hv, hs, postStatus, postRespData]

/-- Witness for C4 at a payload carrying an extra field (the `extra`
key, code points `[101, 120, 116, 114, 97]`) beyond the Reading schema. -/
theorem c4_echo_invariant_witness :
    postStatus (receive_sensor_data true false emptyState ⟨2026, 1, 1, 0, 0, 0, 0⟩
        ⟨2026, 1, 1, 0, 0, 0, 0⟩
        [(deviceKey, JVal.str [100, 101, 118]), (temperatureKey, JVal.num 1),
         (humidityKey, JVal.num 2), (flowRateKey, JVal.num 3),
         ([101, 120, 116, 114, 97], JVal.num 42)]).1 = 200 ∧
    postRespData (receive_sensor_data true false emptyState ⟨2026, 1, 1, 0, 0, 0, 0⟩
        ⟨2026, 1, 1, 0, 0, 0, 0⟩
        [(deviceKey, JVal.str [100, 101, 118]), (temperatureKey, JVal.num 1),
         (humidityKey, JVal.num 2), (flowRateKey, JVal.num 3),
         ([101, 120, 116, 114, 97], JVal.num 42)]).1
      = some [(deviceKey, JVal.str [100, 101, 118]), (temperatureKey, JVal.num 1),
              (humidityKey, JVal.num 2), (flowRateKey, JVal.num 3),
              ([101, 120, 116, 114, 97], JVal.num 42)] :=
  c4_echo_invariant true false emptyState ⟨2026, 1, 1, 0, 0, 0, 0⟩
    ⟨2026, 1, 1, 0, 0, 0, 0⟩ _ (by decide) (by decide)

/-- C6 counterexample. When the INSERT of `save_data` raises, the
`except` branch returns without closing the acquired connection: the
event trace of that database operation contains no `conn.close()`. -/
theorem c6_save_leak_counterexample :
    DbEv.closeConn ∉ save_db_events true := by
  decide

/-- C6 amended. The relational `get_latest_data` closes its connection
on every exit path (its `finally` clause), while the relational
`save_data` closes it exactly on the non-raising path — on the
exception path the connection is leaked. -/
theorem c6_connection_close (raises : Bool) :
    DbEv.closeConn ∈ get_db_events raises ∧
    (DbEv.closeConn ∈ save_db_events raises ↔ raises = false) := by
  cases raises <;> decide

/-- C8 counterexample. Under the fallback backend, two saves for the
same device at the identical capture timestamp produce the same
filename, and the second `open(..., 'w')` overwrites the first record:
the previously persisted content is replaced and only one record
remains. -/
theorem c8_overwrite_counterexample :
    (save_data false false emptyState ⟨2026, 1, 1, 0, 0, 0, 0⟩
        [(deviceKey, JVal.str [100, 101, 118]), (temperatureKey, JVal.num 1),
         (humidityKey, JVal.num 2), (flowRateKey, JVal.num 3)]).2.fs
      = [(fileNameOf [100, 101, 118] ⟨2026, 1, 1, 0, 0, 0, 0⟩,
          [(deviceKey, JVal.str [100, 101, 118]), (temperatureKey, JVal.num 1),
           (humidityKey, JVal.num 2), (flowRateKey, JVal.num 3)])] ∧
    (save_data false false
        (save_data false false emptyState ⟨2026, 1, 1, 0, 0, 0, 0⟩
          [(deviceKey, JVal.str [100, 101, 118]), (temperatureKey, JVal.num 1),
           (humidityKey, JVal.num 2), (flowRateKey, JVal.num 3)]).2
        ⟨2026, 1, 1, 0, 0, 0, 0⟩
        [(deviceKey, JVal.str [100, 101, 118]), (temperatureKey, JVal.num 9),
         (humidityKey, JVal.num 2), (flowRateKey, JVal.num 3)]).2.fs
      = [(fileNameOf [100, 101, 118] ⟨2026, 1, 1, 0, 0, 0, 0⟩,
          [(deviceKey, JVal.str [100, 101, 118]), (temperatureKey, JVal.num 9),
           (humidityKey, JVal.num 2), (flowRateKey, JVal.num 3)])] := by
  decide

/-- C8 amended. The relational save always appends exactly one new row,
leaving every prior row unchanged, duplicates included; the fallback
save appends exactly one new file provided no file of the computed name
exists yet — when the same (device, timestamp) filename already exists,
the earlier record is overwritten instead. -/
theorem c8_append_semantics (st : ServerState) (now : TS) (data : Json) :
    (save_data true false st now data).2.rows = st.rows ++ [mkRow data now] ∧
    (save_data true false st now data).2.fs = st.fs ∧
    (save_data false false st now data).2.rows = st.rows ∧
    ((st.fs.any fun p => decide (p.1 = saveName data now)) = false →
      (save_data false false st now data).2.fs = st.fs ++ [(saveName data now, data)]) := by
  refine ⟨by simp [save_data], by simp [save_data], by simp [save_data], ?_⟩
  intro h
  simp [save_data, fsWrite, h]

/-- Witness for C8 amended: appending into the empty store. -/
theorem c8_append_semantics_witness :
    (save_data false false emptyState ⟨2026, 1, 1, 0, 0, 0, 0⟩
        [(deviceKey, JVal.str [100, 101, 118]), (temperatureKey, JVal.num 1),
         (humidityKey, JVal.num 2), (flowRateKey, JVal.num 3)]).2.fs
      = emptyState.fs
        ++ [(saveName [(deviceKey, JVal.str [100, 101, 118]), (temperatureKey, JVal.num 1),
              (humidityKey, JVal.num 2), (flowRateKey, JVal.num 3)] ⟨2026, 1, 1, 0, 0, 0, 0⟩,
             [(deviceKey, JVal.str [100, 101, 118]), (temperatureKey, JVal.num 1),
              (humidityKey, JVal.num 2), (flowRateKey, JVal.num 3)])] :=
  (c8_append_semantics emptyState ⟨2026, 1, 1, 0, 0, 0, 0⟩
    [(deviceKey, JVal.str [100, 101, 118]), (temperatureKey, JVal.num 1),
     (humidityKey, JVal.num 2), (flowRateKey, JVal.num 3)]).2.2.2 (by decide)

/-- C10. Fallback retrieval is not isolated per device: with a single
stored reading submitted for device `a_b`, GET for device `a` matches
the file `a_b_...json` through the `startswith(device_id + "_")` filter
and returns the reading submitted for `a_b` with HTTP 200. -/
theorem c10_prefix_capture :
    get_latest_data false false
        (save_data false false emptyState ⟨2026, 3, 4, 5, 6, 7, 8⟩
          [(deviceKey, JVal.str [97, 95, 98]), (temperatureKey, JVal.num 11),
           (humidityKey, JVal.num 12), (flowRateKey, JVal.num 13)]).2
        [97]
      = GetResp.ok
          [(deviceKey, JVal.str [97, 95, 98]), (temperatureKey, JVal.num 11),
           (humidityKey, JVal.num 12), (flowRateKey, JVal.num 13)] ∧
    jgetD [(deviceKey, JVal.str [97, 95, 98]), (temperatureKey, JVal.num 11),
           (humidityKey, JVal.num 12), (flowRateKey, JVal.num 13)]
        deviceKey JVal.null
      = JVal.str [97, 95, 98] := by
  decide

theorem filter_nil_of_none {α : Type} (p : α → Bool) :
    ∀ l : List α, (∀ a ∈ l, p a = false) → l.filter p = []
  | [], _ => rfl
  | a :: l, h => by
    have ha := h a (List.mem_cons_self a l)
    simp only [List.filter_cons, ha, if_false]
    exact filter_nil_of_none p l fun b hb => h b (List.mem_cons_of_mem a hb)

/-- C9 counterexample. With a single reading stored for device `a_b` and
none for device `a`, fallback GET for `a` does not return 404: the
`startswith("a_")` filter matches the `a_b` file and the reading is
served with HTTP 200. -/
theorem c9_prefix_counterexample :
    (((save_data false false emptyState ⟨2026, 5, 6, 7, 8, 9, 10⟩
          [(deviceKey, JVal.str [97, 95, 98]), (temperatureKey, JVal.num 21),
           (humidityKey, JVal.num 22), (flowRateKey, JVal.num 23)]).2.fs.map
        Prod.snd).all
      fun q => decide (jgetD q deviceKey JVal.null ≠ JVal.str [97])) = true ∧
    get_latest_data false false
        (save_data false false emptyState ⟨2026, 5, 6, 7, 8, 9, 10⟩
          [(deviceKey, JVal.str [97, 95, 98]), (temperatureKey, JVal.num 21),
           (humidityKey, JVal.num 22), (flowRateKey, JVal.num 23)]).2
        [97]
      ≠ GetResp.notFound := by
  decide

/-- C9 amended. The relational GET returns 404 whenever the table holds
no row for the device; the fallback GET returns 404 exactly when no
stored file's basename starts with `device_id + "_"` — a condition that
can fail even with zero readings for the device, when another device's
id begins with `device_id + "_"`. -/
theorem c9_not_found (st : ServerState) (d : Str)
    (hdb : ∀ r ∈ st.rows, r.device_id ≠ JVal.str d)
    (hfs : ∀ q ∈ st.fs, (d ++ [95]).isPrefixOf q.1 = false) :
    get_latest_data true false st d = GetResp.notFound ∧
    get_latest_data false false st d = GetResp.notFound := by
  constructor
  · have hfil : st.rows.filter (fun r => decide (r.device_id = JVal.str d)) = [] := by
      apply filter_nil_of_none
      intro r hr
      simp [hdb r hr]
    simp [get_latest_data, selectLatest, hfil]
  · have hfil : (st.fs.map Prod.fst).filter (fun f => (d ++ [95]).isPrefixOf f) = [] := by
      apply filter_nil_of_none
      intro f hf
      obtain ⟨q, hq, rfl⟩ := List.mem_map.mp hf
      exact hfs q hq
    simp [get_latest_data, hfil]

/-- Witness for C9 amended: one reading stored for the unrelated device
`x`, queried device `dev`. -/
theorem c9_not_found_witness :
    get_latest_data true false
        ⟨[mkRow [(deviceKey, JVal.str [120])] ⟨2026, 1, 1, 0, 0, 0, 0⟩],
         [(fileNameOf [120] ⟨2026, 1, 1, 0, 0, 0, 0⟩,
           [(deviceKey, JVal.str [120])])]⟩
        [100, 101, 118] = GetResp.notFound ∧
    get_latest_data false false
        ⟨[mkRow [(deviceKey, JVal.str [120])] ⟨2026, 1, 1, 0, 0, 0, 0⟩],
         [(fileNameOf [120] ⟨2026, 1, 1, 0, 0, 0, 0⟩,
           [(deviceKey, JVal.str [120])])]⟩
        [100, 101, 118] = GetResp.notFound :=
  c9_not_found
    ⟨[mkRow [(deviceKey, JVal.str [120])] ⟨2026, 1, 1, 0, 0, 0, 0⟩],
     [(fileNameOf [120] ⟨2026, 1, 1, 0, 0, 0, 0⟩,
       [(deviceKey, JVal.str [120])])]⟩
    [100, 101, 118] (by decide) (by decide)

/-- C5 counterexample. Under the fallback backend a stored payload is
served verbatim: a valid minimal payload (only the four required keys)
is returned by GET with HTTP 200, and the body contains neither a
`timestamp` key nor a `flow_direction` key. -/
theorem c5_file_missing_keys_counterexample :
    get_latest_data false false
        (save_data false false emptyState ⟨2026, 7, 8, 9, 10, 11, 12⟩
          [(deviceKey, JVal.str [100, 101, 118]), (temperatureKey, JVal.num 31),
           (humidityKey, JVal.num 32), (flowRateKey, JVal.num 33)]).2
        [100, 101, 118]
      = GetResp.ok
          [(deviceKey, JVal.str [100, 101, 118]), (temperatureKey, JVal.num 31),
           (humidityKey, JVal.num 32), (flowRateKey, JVal.num 33)] ∧
    containsKey
        [(deviceKey, JVal.str [100, 101, 118]), (temperatureKey, JVal.num 31),
         (humidityKey, JVal.num 32), (flowRateKey, JVal.num 33)]
        timestampKey = false ∧
    containsKey
        [(deviceKey, JVal.str [100, 101, 118]), (temperatureKey, JVal.num 31),
         (humidityKey, JVal.num 32), (flowRateKey, JVal.num 33)]
        flowDirectionKey = false := by
  decide

/-- C5 amended. Every successful relational GET serves the row-shaped
body: exactly the eight keys `device_id`, `temperature`, `humidity`,
`flow_rate`, `flow_direction`, `latitude`, `longitude`, `timestamp`,
the timestamp rendered as an ISO-8601 string; a successful fallback GET
instead serves the stored payload verbatim, which may lack these keys. -/
theorem c5_db_response_shape (raises : Bool) (st : ServerState) (d : Str) (body : Json)
    (h : get_latest_data true raises st d = GetResp.ok body) :
    ∃ r, selectLatest st.rows d = some r ∧ body = rowBody d r ∧
      body.map Prod.fst
        = [deviceKey, temperatureKey, humidityKey, flowRateKey,
           flowDirectionKey, latitudeKey, longitudeKey, timestampKey] ∧
      (timestampKey, JVal.str (isoformat r.timestamp)) ∈ body := by
  cases raises with
  | true => simp [get_latest_data] at h
  | false =>
    rcases hsel : selectLatest st.rows d with _ | r
    · simp [get_latest_data, hsel] at h
    · refine ⟨r, rfl, ?_⟩
      simp only [get_latest_data, hsel, if_true, if_false, Bool.false_eq_true,
        GetResp.ok.injEq] at h
      subst h
      refine ⟨rfl, ?_, ?_⟩
      · simp [rowBody]
      · simp [rowBody]

/-- Witness for C5 amended: the table holding a single row for `dev`. -/
theorem c5_db_response_shape_witness :
    ∃ r,
      selectLatest (save_data true false emptyState ⟨2026, 1, 2, 3, 4, 5, 6⟩
          [(deviceKey, JVal.str [100, 101, 118]), (temperatureKey, JVal.num 1),
           (humidityKey, JVal.num 2), (flowRateKey, JVal.num 3)]).2.rows
        [100, 101, 118] = some r ∧
      rowBody [100, 101, 118]
          (mkRow [(deviceKey, JVal.str [100, 101, 118]), (temperatureKey, JVal.num 1),
            (humidityKey, JVal.num 2), (flowRateKey, JVal.num 3)] ⟨2026, 1, 2, 3, 4, 5, 6⟩)
        = rowBody [100, 101, 118] r ∧
      (rowBody [100, 101, 118]
          (mkRow [(deviceKey, JVal.str [100, 101, 118]), (temperatureKey, JVal.num 1),
            (humidityKey, JVal.num 2), (flowRateKey, JVal.num 3)] ⟨2026, 1, 2, 3, 4, 5, 6⟩)).map
          Prod.fst
        = [deviceKey, temperatureKey, humidityKey, flowRateKey,
           flowDirectionKey, latitudeKey, longitudeKey, timestampKey] ∧
      (timestampKey, JVal.str (isoformat r.timestamp))
        ∈ rowBody [100, 101, 118]
            (mkRow [(deviceKey, JVal.str [100, 101, 118]), (temperatureKey, JVal.num 1),
              (humidityKey, JVal.num 2), (flowRateKey, JVal.num 3)] ⟨2026, 1, 2, 3, 4, 5, 6⟩) :=
  c5_db_response_shape false _ [100, 101, 118] _ (by decide)

/-- C7. The fallback filename encoding is order-preserving at one-second
granularity: for one device and two capture timestamps whose
second-truncations differ in capture order (which holds whenever the
instants are at least one second apart), the later timestamp yields the
lexicographically greater filename, so Python `max` over the two
filenames picks the later reading's file. -/
theorem c7_filename_order (d : Str) (t1 t2 : TS) (h1 : tsWF t1) (h2 : tsWF t2)
    (hsec : secLexLt t1 t2 = true) :
    strLt (fileNameOf d t1) (fileNameOf d t2) = true ∧
    listMaxStr (fileNameOf d t1) [fileNameOf d t2] = fileNameOf d t2 := by
  have h := fileNameOf_lt d t1 t2 h1 h2 hsec
  exact ⟨h, listMaxStr_pair h⟩

/-- Witness for C7: device `dev`, two instants one second apart. -/
theorem c7_filename_order_witness :
    strLt (fileNameOf [100, 101, 118] ⟨2026, 10, 12, 9, 30, 0, 0⟩)
        (fileNameOf [100, 101, 118] ⟨2026, 10, 12, 9, 30, 1, 0⟩) = true ∧
    listMaxStr (fileNameOf [100, 101, 118] ⟨2026, 10, 12, 9, 30, 0, 0⟩)
        [fileNameOf [100, 101, 118] ⟨2026, 10, 12, 9, 30, 1, 0⟩]
      = fileNameOf [100, 101, 118] ⟨2026, 10, 12, 9, 30, 1, 0⟩ :=
  c7_filename_order [100, 101, 118] ⟨2026, 10, 12, 9, 30, 0, 0⟩
    ⟨2026, 10, 12, 9, 30, 1, 0⟩ (by decide) (by decide) (by decide)

/-- C1 counterexample. The most-recent guarantee fails on the fallback
backend below one-second granularity. Two POSTs for device `dev` at
t1 = 2026-01-01T00:00:00.000000 and the strictly later
t2 = 2026-01-01T00:00:00.000001: Python `isoformat` omits the zero
fraction, so t1's filename `dev_2026-01-01T00-00-00.json` compares
lexicographically above t2's `dev_2026-01-01T00-00-00.000001.json`
(`j` is code point 106, `0` is 48), and GET returns t1's values, not
t2's. -/
theorem c1_subsecond_counterexample :
    tsNat ⟨2026, 1, 1, 0, 0, 0, 0⟩ < tsNat ⟨2026, 1, 1, 0, 0, 0, 1⟩ ∧
    get_latest_data false false
        (receive_sensor_data false false
          (receive_sensor_data false false emptyState
            ⟨2026, 1, 1, 0, 0, 0, 0⟩ ⟨2026, 1, 1, 0, 0, 0, 0⟩
            [(deviceKey, JVal.str [100, 101, 118]), (temperatureKey, JVal.num 1),
             (humidityKey, JVal.num 2), (flowRateKey, JVal.num 3)]).2
          ⟨2026, 1, 1, 0, 0, 0, 1⟩ ⟨2026, 1, 1, 0, 0, 0, 1⟩
          [(deviceKey, JVal.str [100, 101, 118]), (temperatureKey, JVal.num 9),
           (humidityKey, JVal.num 2), (flowRateKey, JVal.num 3)]).2
        [100, 101, 118]
      = GetResp.ok
          [(deviceKey, JVal.str [100, 101, 118]), (temperatureKey, JVal.num 1),
           (humidityKey, JVal.num 2), (flowRateKey, JVal.num 3)] := by
  decide

/-- C1 amended. After two POSTs for the same device at capture instants
t1 before t2, GET returns t2's values: unconditionally under the
relational backend (any strict timestamp increase), and under the
fallback backend provided the two instants differ at one-second
granularity — below one second the lexicographic filename choice may
return t1's values instead. -/
theorem c1_latest_after_two_posts (d : Str) (q1 q2 : Json) (t1 t2 rn1 rn2 : TS)
    (h1 : tsWF t1) (h2 : tsWF t2)
    (hv1 : requiredPresent q1 = true) (hv2 : requiredPresent q2 = true)
    (hd1 : jgetD q1 deviceKey (JVal.str unknownStr) = JVal.str d)
    (hd2 : jgetD q2 deviceKey (JVal.str unknownStr) = JVal.str d) :
    (tsNat t1 < tsNat t2 →
      get_latest_data true false
          (receive_sensor_data true false
            (receive_sensor_data true false emptyState t1 rn1 q1).2 t2 rn2 q2).2 d
        = GetResp.ok (rowBody d (mkRow q2 t2))) ∧
    (secLexLt t1 t2 = true →
      get_latest_data false false
          (receive_sensor_data false false
            (receive_sensor_data false false emptyState t1 rn1 q1).2 t2 rn2 q2).2 d
        = GetResp.ok q2) := by
  constructor
  · intro hlt
    have e1 : (receive_sensor_data true false emptyState t1 rn1 q1).2
        = ⟨[mkRow q1 t1], []⟩ := by
      simp [receive_sensor_data, hv1, save_data, emptyState]
    rw [e1]
    have e2 : (receive_sensor_data true false ⟨[mkRow q1 t1], []⟩ t2 rn2 q2).2
        = ⟨[mkRow q1 t1, mkRow q2 t2], []⟩ := by
      simp [receive_sensor_data, hv2, save_data]
    rw [e2]
    have m1 : (mkRow q1 t1).device_id = JVal.str d := by simp [mkRow, hd1]
    have m2 : (mkRow q2 t2).device_id = JVal.str d := by simp [mkRow, hd2]
    have mt1 : (mkRow q1 t1).timestamp = t1 := by simp [mkRow]
    have mt2 : (mkRow q2 t2).timestamp = t2 := by simp [mkRow]
    simp [get_latest_data, selectLatest, List.filter, m1, m2, List.foldl,
      mt1, mt2, hlt]
  · intro hsec
    have hflt := fileNameOf_lt d t1 t2 h1 h2 hsec
    have hne : fileNameOf d t1 ≠ fileNameOf d t2 := strLt_ne hflt
    have hsn1 : saveName q1 t1 = fileNameOf d t1 := by simp [saveName, hd1, pyStr]
    have hsn2 : saveName q2 t2 = fileNameOf d t2 := by simp [saveName, hd2, pyStr]
    have e1 : (receive_sensor_data false false emptyState t1 rn1 q1).2
        = ⟨[], [(fileNameOf d t1, q1)]⟩ := by
      simp [receive_sensor_data, hv1, save_data, emptyState, fsWrite, hsn1]
    rw [e1]
    have e2 : (receive_sensor_data false false ⟨[], [(fileNameOf d t1, q1)]⟩ t2 rn2 q2).2
        = ⟨[], [(fileNameOf d t1, q1), (fileNameOf d t2, q2)]⟩ := by
      simp [receive_sensor_data, hv2, save_data, fsWrite, hsn2, hne]
    rw [e2]
    have hpre1 := fileName_devPre d t1
    have hpre2 := fileName_devPre d t2
    have hmax : listMaxStr (fileNameOf d t1) [fileNameOf d t2] = fileNameOf d t2 :=
      listMaxStr_pair hflt
    simp [get_latest_data, List.filter, hpre1, hpre2, hmax, List.find?, hne]

/-- Witness for C1 amended: device `dev`, concrete payloads, instants
one second apart. -/
theorem c1_latest_after_two_posts_witness :
    get_latest_data true false
        (receive_sensor_data true false
          (receive_sensor_data true false emptyState
            ⟨2026, 10, 12, 9, 30, 0, 0⟩ ⟨2026, 10, 12, 9, 30, 0, 0⟩
            [(deviceKey, JVal.str [100, 101, 118]), (temperatureKey, JVal.num 1),
             (humidityKey, JVal.num 2), (flowRateKey, JVal.num 3)]).2
          ⟨2026, 10, 12, 9, 30, 1, 0⟩ ⟨2026, 10, 12, 9, 30, 1, 0⟩
          [(deviceKey, JVal.str [100, 101, 118]), (temperatureKey, JVal.num 9),
           (humidityKey, JVal.num 2), (flowRateKey, JVal.num 3)]).2
        [100, 101, 118]
      = GetResp.ok
          (rowBody [100, 101, 118]
            (mkRow [(deviceKey, JVal.str [100, 101, 118]), (temperatureKey, JVal.num 9),
              (humidityKey, JVal.num 2), (flowRateKey, JVal.num 3)]
              ⟨2026, 10, 12, 9, 30, 1, 0⟩)) ∧
    get_latest_data false false
        (receive_sensor_data false false
          (receive_sensor_data false false emptyState
            ⟨2026, 10, 12, 9, 30, 0, 0⟩ ⟨2026, 10, 12, 9, 30, 0, 0⟩
            [(deviceKey, JVal.str [100, 101, 118]), (temperatureKey, JVal.num 1),
             (humidityKey, JVal.num 2), (flowRateKey, JVal.num 3)]).2
          ⟨2026, 10, 12, 9, 30, 1, 0⟩ ⟨2026, 10, 12, 9, 30, 1, 0⟩
          [(deviceKey, JVal.str [100, 101, 118]), (temperatureKey, JVal.num 9),
           (humidityKey, JVal.num 2), (flowRateKey, JVal.num 3)]).2
        [100, 101, 118]
      = GetResp.ok
          [(deviceKey, JVal.str [100, 101, 118]), (temperatureKey, JVal.num 9),
           (humidityKey, JVal.num 2), (flowRateKey, JVal.num 3)] :=
  ⟨(c1_latest_after_two_posts [100, 101, 118] _ _
      ⟨2026, 10, 12, 9, 30, 0, 0⟩ ⟨2026, 10, 12, 9, 30, 1, 0⟩
      ⟨2026, 10, 12, 9, 30, 0, 0⟩ ⟨2026, 10, 12, 9, 30, 1, 0⟩
      (by decide) (by decide) (by decide) (by decide) (by decide) (by decide)).1
      (by decide),
   (c1_latest_after_two_posts [100, 101, 118] _ _
      ⟨2026, 10, 12, 9, 30, 0, 0⟩ ⟨2026, 10, 12, 9, 30, 1, 0⟩
      ⟨2026, 10, 12, 9, 30, 0, 0⟩ ⟨2026, 10, 12, 9, 30, 1, 0⟩
      (by decide) (by decide) (by decide) (by decide) (by decide) (by decide)).2
      (by decide)⟩

end SpillData
